import Mathlib

/-!
Shallow embedding of the picamctl camera-control daemon
(`src/picamctl.py`, with the overlapping legacy module `src/camera_control.py`)
and proofs about its settings reconciliation, resolution validation,
command-line construction, session lifecycle and MJPEG frame extraction.
-/

namespace PiCam

/-! ## Settings (module-level `settings` dict, defaults at picamctl.py:98-127)

Python floats are embedded as rationals; MQTT-only fields are omitted since no
camera-pipeline code path reads them (they are checked by key name only in
`apply_settings`, which is modelled at the key-set level below). -/

structure Settings where
  width : ℕ
  height : ℕ
  framerate : ℕ
  brightness : ℚ
  contrast : ℚ
  saturation : ℚ
  sharpness : ℚ
  exposure : String
  metering : String
  awb : String
  rotation : ℤ
  hflip : Bool
  vflip : Bool
  ev : ℤ
  shutter : ℤ
  gain : ℤ
  denoise : String
  hdr : String
  quality : ℕ
  snapshot_quality : ℕ
  zoom : ℚ
deriving DecidableEq, Repr

/-- Default settings (picamctl.py:98-127). -/
def defaultSettings : Settings where
  width := 1280
  height := 720
  framerate := 15
  brightness := 0
  contrast := 1
  saturation := 1
  sharpness := 1
  exposure := "normal"
  metering := "centre"
  awb := "auto"
  rotation := 0
  hflip := false
  vflip := false
  ev := 0
  shutter := 0
  gain := 0
  denoise := "auto"
  hdr := "off"
  quality := 93
  snapshot_quality := 100
  zoom := 1

/-! ## Command tokens

The source builds commands as flat Python lists of strings.  A token is either
a literal string written in the source (`Tok.lit`), a rendered numeric
settings value (`Tok.nat`/`Tok.int`/`Tok.rat` for `str(settings[k])`), a
string-valued settings value passed through verbatim (`Tok.enum`), or the
rendered ROI fraction quadruple (`Tok.roi x y w h` for the f-string
rendering of the four fractions).  Keeping values in separate constructors
preserves exactly the information in the source token list (decimal rendering
is injective) while keeping flag-membership questions decidable. -/

inductive Tok where
  | lit : String → Tok
  | nat : ℕ → Tok
  | int : ℤ → Tok
  | rat : ℚ → Tok
  | enum : String → Tok
  | roi : ℚ → ℚ → ℚ → ℚ → Tok
deriving DecidableEq, Repr

/-- `rotation in (90, 270)` (picamctl.py:1048). -/
def needsTranspose (s : Settings) : Bool :=
  s.rotation == 90 || s.rotation == 270

/-- `'transpose=1' if rotation == 90 else 'transpose=2'` (picamctl.py:1049). -/
def transposeFilter (s : Settings) : String :=
  if s.rotation == 90 then "transpose=1" else "transpose=2"

/-- Fixed head of the `rpicam-vid` H.264 command (picamctl.py:1052-1069). -/
def h264BaseCmd (s : Settings) : List Tok :=
  [.lit "rpicam-vid", .lit "--nopreview", .lit "--codec", .lit "h264",
   .lit "--width", .nat s.width, .lit "--height", .nat s.height,
   .lit "--framerate", .nat s.framerate, .lit "--timeout", .lit "0",
   .lit "--brightness", .rat s.brightness, .lit "--contrast", .rat s.contrast,
   .lit "--saturation", .rat s.saturation, .lit "--sharpness", .rat s.sharpness,
   .lit "--exposure", .enum s.exposure, .lit "--metering", .enum s.metering,
   .lit "--awb", .enum s.awb, .lit "--inline", .lit "-o", .lit "-"]

/-- `if not needs_transpose and rotation != 0: cmd.extend(['--rotation', ...])`
(picamctl.py:1072-1073). -/
def h264RotationArgs (s : Settings) : List Tok :=
  if needsTranspose s = false ∧ s.rotation ≠ 0 then
    [.lit "--rotation", .int s.rotation]
  else []

/-- Conditional advanced flags, appended only when deviating from the
auto/default value (picamctl.py:1076-1085, identically 1329-1338). -/
def advancedArgs (s : Settings) : List Tok :=
  (if s.ev ≠ 0 then [.lit "--ev", .int s.ev] else []) ++
  (if s.shutter > 0 then [.lit "--shutter", .int s.shutter] else []) ++
  (if s.gain > 0 then [.lit "--gain", .int s.gain] else []) ++
  (if s.denoise ≠ "auto" then [.lit "--denoise", .enum s.denoise] else []) ++
  (if s.hdr ≠ "off" then [.lit "--hdr", .enum s.hdr] else [])

/-- hflip/vflip flags (picamctl.py:1087-1090, 1339-1342). -/
def flipArgs (s : Settings) : List Tok :=
  (if s.hflip then [.lit "--hflip"] else []) ++
  (if s.vflip then [.lit "--vflip"] else [])

/-- Digital zoom ROI block (picamctl.py:1092-1099, identically 1344-1351):
`if zoom_factor > 1.0`, append `--roi x,y,w,h` with `w = h = 1/z`,
`x = (1-w)/2`, `y = (1-h)/2`. -/
def roiArgs (s : Settings) : List Tok :=
  if s.zoom > 1 then
    let w := 1 / s.zoom
    let h := 1 / s.zoom
    let x := (1 - w) / 2
    let y := (1 - h) / 2
    [.lit "--roi", .roi x y w h]
  else []

/-- Full `rpicam-vid` command of the HLS pipeline (picamctl.py:1052-1099),
token for token in source order. -/
def h264CaptureCmd (s : Settings) : List Tok :=
  h264BaseCmd s ++ h264RotationArgs s ++ advancedArgs s ++ flipArgs s ++ roiArgs s

/-- The ffmpeg HLS transcoder command (picamctl.py:1102-1132).  Paths under
`HLS_DIR` are embedded as their fixed relative names. -/
def h264FfmpegCmd (s : Settings) : List Tok :=
  [.lit "ffmpeg", .lit "-hide_banner", .lit "-loglevel", .lit "warning",
   .lit "-f", .lit "h264", .lit "-i", .lit "-"] ++
  (if needsTranspose s then
    [.lit "-vf", .lit (transposeFilter s), .lit "-c:v", .lit "libx264",
     .lit "-preset", .lit "ultrafast", .lit "-tune", .lit "zerolatency",
     .lit "-pix_fmt", .lit "yuv420p",
     .lit "-x264-params", .lit "keyint=30:min-keyint=30:scenecut=0"]
  else
    [.lit "-c:v", .lit "copy"]) ++
  [.lit "-f", .lit "hls", .lit "-hls_time", .lit "1",
   .lit "-hls_list_size", .lit "5",
   .lit "-hls_flags", .lit "delete_segments+append_list",
   .lit "-hls_segment_filename", .lit "hls_segments/segment_%03d.ts",
   .lit "hls_segments/stream.m3u8"]

/-- Fixed head of the raw-tunnel (`vlc` mode) capture command
(picamctl.py:1305-1322); identical flags to the HLS head. -/
def vlcBaseCmd (s : Settings) : List Tok :=
  [.lit "rpicam-vid", .lit "--nopreview", .lit "--codec", .lit "h264",
   .lit "--width", .nat s.width, .lit "--height", .nat s.height,
   .lit "--framerate", .nat s.framerate, .lit "--timeout", .lit "0",
   .lit "--brightness", .rat s.brightness, .lit "--contrast", .rat s.contrast,
   .lit "--saturation", .rat s.saturation, .lit "--sharpness", .rat s.sharpness,
   .lit "--exposure", .enum s.exposure, .lit "--metering", .enum s.metering,
   .lit "--awb", .enum s.awb, .lit "--inline", .lit "-o", .lit "-"]

/-- `if rotation in (0, 180): cmd.extend(['--rotation', ...])`
(picamctl.py:1325-1326). -/
def vlcRotationArgs (s : Settings) : List Tok :=
  if s.rotation = 0 ∨ s.rotation = 180 then
    [.lit "--rotation", .int s.rotation]
  else []

/-- Full raw-tunnel capture command (picamctl.py:1305-1351). -/
def vlcCaptureCmd (s : Settings) : List Tok :=
  vlcBaseCmd s ++ vlcRotationArgs s ++ advancedArgs s ++ flipArgs s ++ roiArgs s

/-! ## Resolution validation (`validate_resolution`, picamctl.py:136-153;
the copy in camera_control.py:90-107 is character-identical). -/

structure SupportedRes where
  width : ℕ
  height : ℕ
  name : String
deriving DecidableEq, Repr

/-- picamctl.py:130-134. -/
def SUPPORTED_RESOLUTIONS : List SupportedRes :=
  [⟨640, 480, "640x480 (SD)"⟩,
   ⟨1280, 720, "1280x720 (HD)"⟩,
   ⟨1920, 1080, "1920x1080 (Full HD)"⟩]

/-- The fallback scan (picamctl.py:146-151): walk the list, remembering the
last resolution fitting inside the request, stopping at the first that does
not (`else: break`); `fb` starts as `SUPPORTED_RESOLUTIONS[0]`. -/
def findFallback (w h : ℕ) : List SupportedRes → SupportedRes → SupportedRes
  | [], fb => fb
  | r :: rest, fb =>
      if r.width ≤ w ∧ r.height ≤ h then findFallback w h rest r else fb

/-- Warning message rendered for a fallback (picamctl.py:153). -/
def resWarning (w h : ℕ) (fb : SupportedRes) : String :=
  "Resolution " ++ toString w ++ "x" ++ toString h ++
    " not supported, falling back to " ++ fb.name

/-- `validate_resolution` (picamctl.py:136-153): exact matches are returned
unchanged with no warning; otherwise the fallback scan runs and a warning is
attached.  The exact-match branch returns the bare requested pair (the source
returns a width/height dict without a name). -/
def validate_resolution (w h : ℕ) : (ℕ × ℕ) × Option String :=
  if SUPPORTED_RESOLUTIONS.any (fun r => r.width == w && r.height == h) then
    ((w, h), none)
  else
    let fb := findFallback w h SUPPORTED_RESOLUTIONS ⟨640, 480, "640x480 (SD)"⟩
    ((fb.width, fb.height), some (resWarning w h fb))

/-! ## Bandwidth estimation (`calculate_bandwidth`, picamctl.py:155-194)

The filesystem scan that totals the `.ts` segment sizes is abstracted into the
`total_bytes` argument; `current_time` is likewise an input.  The global
`bandwidth_data` dict becomes explicit state. -/

structure BWData where
  last_check_time : ℚ
  last_total_bytes : ℤ
  current_kbps : ℚ
deriving DecidableEq, Repr

/-- Initial `bandwidth_data` (picamctl.py:46-50). -/
def initBW : BWData := ⟨0, 0, 0⟩

/-- One call to `calculate_bandwidth` (picamctl.py:173-191): compute only when
a previous sample exists (`last_check_time > 0`) and time advanced; smooth
with weights 0.7/0.3 only when the previous smoothed value is positive;
always record the new sample; return the (possibly updated) smoothed value. -/
def calculate_bandwidth (d : BWData) (current_time : ℚ) (total_bytes : ℤ) :
    BWData × ℚ :=
  let d1 :=
    if d.last_check_time > 0 then
      let time_diff := current_time - d.last_check_time
      if time_diff > 0 then
        let bytes_diff := total_bytes - d.last_total_bytes
        let kbps := ((bytes_diff : ℚ) * 8) / (time_diff * 1000)
        if d.current_kbps > 0 then
          { d with current_kbps := 0.7 * d.current_kbps + 0.3 * kbps }
        else
          { d with current_kbps := kbps }
      else d
    else d
  let d2 := { d1 with last_check_time := current_time,
                      last_total_bytes := total_bytes }
  (d2, d2.current_kbps)

/-! ## Session state machine

Module-level mutable state of picamctl.py (lines 27-54) made explicit:
the tracked pipeline process handle, the MJPEG busy flag, the streaming
mode, the files present in `HLS_DIR`, and whether the `vlc_stream.fifo`
named pipe exists. -/

/-- A spawned external process handle: identity plus liveness. -/
structure Proc where
  pid : ℕ
  alive : Bool
deriving DecidableEq, Repr

/-- `streaming_mode` is the string `'hls'` or `'vlc'` (picamctl.py:35). -/
inductive StreamingMode where
  | hls
  | vlc
deriving DecidableEq, Repr

structure CamState where
  current_camera_process : Option Proc
  camera_running : Bool
  streaming_mode : StreamingMode
  hls_files : List String
  fifo_exists : Bool
deriving DecidableEq, Repr

/-- `use_hw_acceleration = True` (picamctl.py:31, a constant). -/
def use_hw_acceleration : Bool := true

/-- Effect of `os.system("pkill -f 'rpicam-vid.*h264'")` and
`os.system("pkill -f 'ffmpeg.*hls'")` (picamctl.py:997-998): the tracked
pipeline process matches those command-line patterns, so after the signal and
the 0.5 s grace sleep it is dead. -/
def pkillCamera (s : CamState) : CamState :=
  { s with current_camera_process :=
      s.current_camera_process.map (fun p => { p with alive := false }) }

/-- `stop_camera_process` (picamctl.py:990-1025): name-based kill, then the
handle-based terminate branch — entered only when a tracked process is
present and `poll()` still reports it alive, in which case the reference is
cleared — then best-effort removal of the FIFO.  Every fallible operation in
the body is wrapped in try/except, so the embedding is a total function. -/
def stop_camera_process (s : CamState) : CamState :=
  let s1 := pkillCamera s
  let s2 :=
    match s1.current_camera_process with
    | some p => if p.alive then { s1 with current_camera_process := none } else s1
    | none => s1
  { s2 with fifo_exists := false }

/-- `stop_camera_process` of the legacy module (camera_control.py:805-821):
no name-based kill and no FIFO cleanup; terminate-then-kill under
try/except, clearing the reference, only when a live process is tracked. -/
def cc_stop_camera_process (s : CamState) : CamState :=
  match s.current_camera_process with
  | some p => if p.alive then { s with current_camera_process := none } else s
  | none => s

/-- State effect of `start_h264_camera` (picamctl.py:1027-1186): old `.ts`
and `.m3u8` files are removed from `HLS_DIR` (lines 1036-1045) before the
piped rpicam-vid|ffmpeg process is spawned and registered (lines 1156-1178).
`newPid` names the fresh process. -/
def start_h264_camera_step (s : CamState) (newPid : ℕ) : CamState :=
  { s with
      hls_files := s.hls_files.filter
        (fun f => !(f.endsWith ".ts" || f.endsWith ".m3u8")),
      current_camera_process := some ⟨newPid, true⟩,
      camera_running := true }

/-- State effect of `start_vlc_camera` (picamctl.py:1296-1403): the stale
FIFO is removed (lines 1356-1361), the capture process is spawned and
registered (lines 1376-1396); nothing touches `HLS_DIR`. -/
def start_vlc_camera_step (s : CamState) (newPid : ℕ) : CamState :=
  { s with
      fifo_exists := false,
      current_camera_process := some ⟨newPid, true⟩,
      camera_running := true }

/-- The `/vlc` route (`vlc_mode`, picamctl.py:1645-1667): under the
mode-switch lock, when not already in vlc mode, stop the current pipeline,
set the mode, and start the raw-tunnel capture process. -/
def vlc_mode_switch (s : CamState) (newPid : ℕ) : CamState :=
  if s.streaming_mode ≠ StreamingMode.vlc then
    let s1 := stop_camera_process s
    let s2 := { s1 with streaming_mode := StreamingMode.vlc }
    start_vlc_camera_step s2 newPid
  else s

/-! ## Snapshot (`take_snapshot`, picamctl.py:1756-1857) -/

/-- Outcome of the one-shot `rpicam-still` invocation
(`subprocess.run(cmd, capture_output=True, timeout=10)`). -/
inductive SnapOutcome where
  | success
  | nonzeroExit
  | timeout
  | exception
deriving DecidableEq, Repr

/-- Which start function was invoked to bring a pipeline back up. -/
inductive PipelineKind where
  | h264_hls
  | vlc_raw
deriving DecidableEq, Repr

/-- The pipeline that serves a given streaming mode. -/
def pipelineOf : StreamingMode → PipelineKind
  | StreamingMode.hls => PipelineKind.h264_hls
  | StreamingMode.vlc => PipelineKind.vlc_raw

structure SnapshotResult where
  state : CamState
  restarted : Option PipelineKind
  succeeded : Bool
deriving DecidableEq, Repr

/-- `take_snapshot` (picamctl.py:1756-1857): stop the stream, run the still
capture, and in every branch — success and non-zero exit (lines 1819-1823,
before the return-code check), `TimeoutExpired` (1846-1851), and any other
exception (1852-1857) — restart via `start_h264_camera` whenever
`use_hw_acceleration` is set, independent of the streaming mode that was
active before the request. -/
def take_snapshot (s : CamState) (outcome : SnapOutcome) : SnapshotResult :=
  let s1 := stop_camera_process s
  match outcome with
  | SnapOutcome.success =>
      { state := s1,
        restarted := if use_hw_acceleration then some PipelineKind.h264_hls else none,
        succeeded := true }
  | SnapOutcome.nonzeroExit =>
      { state := s1,
        restarted := if use_hw_acceleration then some PipelineKind.h264_hls else none,
        succeeded := false }
  | SnapOutcome.timeout =>
      { state := s1,
        restarted := if use_hw_acceleration then some PipelineKind.h264_hls else none,
        succeeded := false }
  | SnapOutcome.exception =>
      { state := s1,
        restarted := if use_hw_acceleration then some PipelineKind.h264_hls else none,
        succeeded := false }

/-! ## Settings reconciliation (`apply_settings`, picamctl.py:1869-1928) -/

/-- The disruptive key set (picamctl.py:1890-1893). -/
def restart_required_settings : List String :=
  ["width", "height", "framerate", "vflip", "hflip",
   "rotation", "exposure", "denoise", "hdr", "zoom"]

/-- Key set of `new_settings` at the point `needs_restart` is computed:
`apply_settings` first executes `new_settings['width'] = validated_res['width']`
and `new_settings['height'] = validated_res['height']` (picamctl.py:1881-1882),
so both keys are present whatever the request body held. -/
def applySettingsKeys (ks : List String) : List String :=
  let ks1 := if "width" ∈ ks then ks else ks ++ ["width"]
  if "height" ∈ ks1 then ks1 else ks1 ++ ["height"]

/-- `needs_restart = any(key in new_settings for key in
restart_required_settings)` (picamctl.py:1896), evaluated on the mutated
`new_settings`. -/
def needs_restart (ks : List String) : Bool :=
  restart_required_settings.any (fun k => (applySettingsKeys ks).contains k)

/-! ## MJPEG busy gate (`generate_frames`, picamctl.py:1455-1468;
identical in camera_control.py) -/

/-- What the generator emits on its guarded entry. -/
inductive FrameOut where
  | busyFrame
deriving DecidableEq, Repr

/-- Guarded entry of `generate_frames` (picamctl.py:1460-1468): under the
camera lock, a set busy flag yields the multipart "Camera in use by another
viewer" error frame and returns without spawning anything; otherwise the flag
is taken and capture proceeds.  The returned Bool records whether a capture
process will be spawned. -/
def generate_frames_entry (s : CamState) : CamState × Option FrameOut × Bool :=
  if s.camera_running then
    (s, some FrameOut.busyFrame, false)
  else
    ({ s with camera_running := true }, none, true)

/-! ## MJPEG frame extraction (`generate_frames` inner loop,
picamctl.py:1531-1568; character-identical in camera_control.py:893-930)

Bytes are naturals below 256; the upstream capture stream is the
concatenation of the chunks read from the process stdout. -/

/-- `jpeg_start = b'\xff\xd8'` (picamctl.py:1533). -/
def jpeg_start : List ℕ := [0xff, 0xd8]

/-- `jpeg_end = b'\xff\xd9'` (picamctl.py:1534). -/
def jpeg_end : List ℕ := [0xff, 0xd9]

/-- Python `bytes.find(pat, start)`: the least index `i ≥ start` at which
`pat` occurs in `b`, if any. -/
def bytesFind (b pat : List ℕ) (start : ℕ) : Option ℕ :=
  (List.range (b.length + 1)).find?
    (fun i => decide (start ≤ i) && pat.isPrefixOf (b.drop i))

/-- Processing of one stdout chunk (picamctl.py:1544-1568): append to the
buffer; at most one frame is extracted per chunk (`frames_processed < 1`).
If no start marker is found the buffer is truncated to its last 2048 bytes
(`frame_buffer[-2048:]`); if no end marker follows the start, the buffer is
kept whole; otherwise `frame_buffer[start_idx:end_idx+2]` is yielded and the
buffer becomes `frame_buffer[end_idx+2:]`.

`off` is the position in the upstream stream of the buffer's first byte; the
result carries the new offset, the new buffer, and the yielded frame (tagged
with its stream position) if any. -/
def stepChunk (off : ℕ) (buf chunk : List ℕ) :
    ℕ × List ℕ × Option (ℕ × List ℕ) :=
  let b := buf ++ chunk
  match bytesFind b jpeg_start 0 with
  | none => (off + (b.length - 2048), b.drop (b.length - 2048), none)
  | some s =>
    match bytesFind b jpeg_end (s + 2) with
    | none => (off, b, none)
    | some e =>
        (off + (e + 2), b.drop (e + 2), some (off + s, (b.drop s).take (e + 2 - s)))

/-- The extraction loop over a whole list of chunks, collecting the yielded
frames in emission order together with their stream positions. -/
def runChunks (off : ℕ) (buf : List ℕ) :
    List (List ℕ) → ℕ × List ℕ × List (ℕ × List ℕ)
  | [] => (off, buf, [])
  | c :: cs =>
      let r := stepChunk off buf c
      let rest := runChunks r.1 r.2.1 cs
      (rest.1, rest.2.1, r.2.2.toList ++ rest.2.2)

/-! ## Theorems -/

/-- The key `"width"` is always present once `apply_settings` has injected the
validated resolution into the request body. -/
lemma width_mem_applySettingsKeys (ks : List String) :
    "width" ∈ applySettingsKeys ks := by
  unfold applySettingsKeys
  by_cases h1 : "width" ∈ ks
  · simp only [if_pos h1]
    split <;> simp [h1]
  · simp only [if_neg h1]
    split <;> simp

/-- C1: the claim says an update whose keys avoid the disruptive set
{width, height, framerate, hflip, vflip, rotation, exposure, denoise, hdr,
zoom} causes no stop/start cycle.  The code violates this: `apply_settings`
writes the validated `width` and `height` into `new_settings` before
computing `needs_restart`, so `needs_restart` is true for every request —
including a brightness-only update, whose key set is disjoint from the
disruptive set — and the stop-then-restart path always runs. -/
theorem apply_settings_always_restarts :
    needs_restart ["brightness"] = true ∧
    (restart_required_settings.all
      (fun k => !(["brightness"] : List String).contains k)) = true ∧
    ∀ ks : List String, needs_restart ks = true := by
  refine ⟨by decide, by decide, ?_⟩
  intro ks
  unfold needs_restart
  rw [List.any_eq_true]
  refine ⟨"width", by simp [restart_required_settings], ?_⟩
  exact List.elem_eq_true_of_mem (width_mem_applySettingsKeys ks)

/-- C3: calling stop with no active session is harmless.  `stop_camera_process`
(picamctl.py) leaves the whole state unchanged except for the best-effort FIFO
removal, and the legacy `stop_camera_process` (camera_control.py) is the exact
identity; both are total functions (every fallible operation in the source
bodies sits inside try/except), so nothing is raised on "nothing to stop" and
the active-session reference stays cleared. -/
theorem stop_idempotent_when_no_session (s : CamState)
    (h : s.current_camera_process = none) :
    stop_camera_process s = { s with fifo_exists := false } ∧
    cc_stop_camera_process s = s := by
  obtain ⟨cp, cr, sm, hf, fe⟩ := s
  cases h
  exact ⟨rfl, rfl⟩

/-- Witness for `stop_idempotent_when_no_session` at a concrete idle state. -/
theorem stop_idempotent_when_no_session_witness :
    stop_camera_process ⟨none, false, StreamingMode.hls, [], true⟩ =
      ⟨none, false, StreamingMode.hls, [], false⟩ ∧
    cc_stop_camera_process ⟨none, false, StreamingMode.hls, [], true⟩ =
      ⟨none, false, StreamingMode.hls, [], true⟩ :=
  stop_idempotent_when_no_session ⟨none, false, StreamingMode.hls, [], true⟩ rfl

/-- C5: a start-streaming request arriving while the camera-in-use flag is set
is rejected with the busy error frame, no capture process is spawned
(`false`), and the state — in particular the tracked session process — is
returned untouched. -/
theorem generate_frames_rejects_when_busy (s : CamState)
    (h : s.camera_running = true) :
    generate_frames_entry s = (s, some FrameOut.busyFrame, false) := by
  unfold generate_frames_entry
  rw [if_pos h]

/-- Witness for `generate_frames_rejects_when_busy` at a concrete busy state. -/
theorem generate_frames_rejects_when_busy_witness :
    generate_frames_entry ⟨some ⟨5, true⟩, true, StreamingMode.hls, [], false⟩ =
      (⟨some ⟨5, true⟩, true, StreamingMode.hls, [], false⟩,
       some FrameOut.busyFrame, false) :=
  generate_frames_rejects_when_busy
    ⟨some ⟨5, true⟩, true, StreamingMode.hls, [], false⟩ rfl

/-- C2 counterexample: for the request 320x240 no supported resolution fits
inside the request, yet `validate_resolution` still answers 640x480 — a
resolution that exceeds the request — so "returns the nearest supported
resolution not exceeding the request" is false as stated. -/
theorem validate_resolution_counterexample :
    (validate_resolution 320 240).1 = (640, 480) ∧ ¬(640 ≤ 320 ∧ 480 ≤ 240) := by
  constructor
  · decide
  · decide

/-- A fallback warning message is never the empty string. -/
lemma resWarning_ne_empty (w h : ℕ) (fb : SupportedRes) :
    (resWarning w h fb).length ≠ 0 := by
  unfold resWarning
  rw [String.length_append, String.length_append, String.length_append,
    String.length_append, String.length_append]
  have h11 : "Resolution ".length = 11 := rfl
  omega

/-- C2 amended: an exactly-supported request is returned unchanged with no
warning; an unsupported request yields a non-empty warning together with the
largest supported resolution fitting inside the request in both dimensions —
or the lowest supported resolution 640x480 when none fits (in which case the
answer exceeds the request). -/
theorem validate_resolution_spec (w h : ℕ) :
    (SUPPORTED_RESOLUTIONS.any (fun r => r.width == w && r.height == h) = true →
      validate_resolution w h = ((w, h), none)) ∧
    (SUPPORTED_RESOLUTIONS.any (fun r => r.width == w && r.height == h) = false →
      (validate_resolution w h).1 =
        (if 1920 ≤ w ∧ 1080 ≤ h then (1920, 1080)
         else if 1280 ≤ w ∧ 720 ≤ h then (1280, 720)
         else (640, 480)) ∧
      ∃ msg, (validate_resolution w h).2 = some msg ∧ msg.length ≠ 0) := by
  constructor
  · intro hs
    unfold validate_resolution
    rw [if_pos hs]
  · intro hs
    unfold validate_resolution
    rw [if_neg (by simp [hs])]
    refine ⟨?_, _, rfl, resWarning_ne_empty _ _ _⟩
    show ((findFallback w h SUPPORTED_RESOLUTIONS ⟨640, 480, "640x480 (SD)"⟩).width,
          (findFallback w h SUPPORTED_RESOLUTIONS ⟨640, 480, "640x480 (SD)"⟩).height) = _
    simp only [SUPPORTED_RESOLUTIONS, findFallback]
    split_ifs <;> simp_all <;> omega

/-- Witness for `validate_resolution_spec`: the supported request 1280x720 is
echoed without warning; the unsupported 800x600 falls back to 640x480 with a
non-empty warning. -/
theorem validate_resolution_spec_witness :
    validate_resolution 1280 720 = ((1280, 720), none) ∧
    ((validate_resolution 800 600).1 =
        (if 1920 ≤ 800 ∧ 1080 ≤ 600 then (1920, 1080)
         else if 1280 ≤ 800 ∧ 720 ≤ 600 then (1280, 720)
         else (640, 480)) ∧
      ∃ msg, (validate_resolution 800 600).2 = some msg ∧ msg.length ≠ 0) :=
  ⟨(validate_resolution_spec 1280 720).1 (by decide),
   (validate_resolution_spec 800 600).2 (by decide)⟩

/-- C8 counterexample: samples at times 1, 2, 3 with byte totals 0, 0, 1000.
The computation at time 2 produces the estimate 0 (raw rate of equal byte
totals); by the claim the computation at time 3 — a subsequent computation —
should be 0.7·0 + 0.3·8 = 2.4 Kbps, but the code treats the non-positive
previous value as absent and answers the raw rate 8 Kbps. -/
theorem bandwidth_counterexample :
    (calculate_bandwidth
        (calculate_bandwidth (calculate_bandwidth initBW 1 0).1 2 0).1 3 1000).2 = 8 ∧
    (calculate_bandwidth (calculate_bandwidth initBW 1 0).1 2 0).2 = 0 ∧
    (8 : ℚ) ≠ 0.7 * 0 + 0.3 * (((1000 - 0) * 8 : ℚ) / ((3 - 2) * 1000)) := by
  refine ⟨?_, ?_, by norm_num⟩
  · norm_num [calculate_bandwidth, initBW]
  · norm_num [calculate_bandwidth, initBW]

/-- C8 amended: with two samples recorded from the initial state the first
computation yields the raw rate (b1-b0)·8/((t1-t0)·1000); a subsequent
computation applies the 0.7/0.3 exponential smoothing only when the previous
smoothed value is positive — a previous computed estimate ≤ 0 is treated as
absent and the estimate is reset to the raw rate. -/
theorem bandwidth_spec :
    (∀ (t0 t1 : ℚ) (b0 b1 : ℤ), 0 < t0 → t0 < t1 →
      (calculate_bandwidth (calculate_bandwidth initBW t0 b0).1 t1 b1).2 =
        ((b1 - b0 : ℤ) : ℚ) * 8 / ((t1 - t0) * 1000)) ∧
    (∀ (d : BWData) (t : ℚ) (b : ℤ), 0 < d.last_check_time →
      d.last_check_time < t → 0 < d.current_kbps →
      (calculate_bandwidth d t b).2 =
        0.7 * d.current_kbps +
          0.3 * (((b - d.last_total_bytes : ℤ) : ℚ) * 8 /
            ((t - d.last_check_time) * 1000))) := by
  constructor
  · intro t0 t1 b0 b1 h0 h01
    have h1 : (calculate_bandwidth initBW t0 b0).1 = ⟨t0, b0, 0⟩ := by
      simp only [calculate_bandwidth, initBW]
      rw [if_neg (lt_irrefl 0)]
    rw [h1]
    simp only [calculate_bandwidth]
    rw [if_pos h0, if_pos (by linarith : (0 : ℚ) < t1 - t0),
      if_neg (lt_irrefl 0)]
  · intro d t b hd hdt hpos
    simp only [calculate_bandwidth]
    rw [if_pos hd, if_pos (by linarith : (0 : ℚ) < t - d.last_check_time),
      if_pos hpos]

/-- `stop_camera_process` touches only the tracked process handle and the
FIFO flag; the busy flag, streaming mode and the HLS directory contents pass
through unchanged. -/
lemma stop_camera_process_preserves (s : CamState) :
    (stop_camera_process s).camera_running = s.camera_running ∧
    (stop_camera_process s).streaming_mode = s.streaming_mode ∧
    (stop_camera_process s).hls_files = s.hls_files ∧
    (stop_camera_process s).fifo_exists = false := by
  obtain ⟨cp, cr, sm, hf, fe⟩ := s
  match cp with
  | none => exact ⟨rfl, rfl, rfl, rfl⟩
  | some p =>
      obtain ⟨pid, alive⟩ := p
      cases alive <;> exact ⟨rfl, rfl, rfl, rfl⟩

/-- Witness for `bandwidth_spec`: a first computation over samples (1,0) and
(2,1000) yields the raw 8 Kbps; a computation from a positive previous
estimate of 5 Kbps yields the smoothed 0.7·5 + 0.3·8. -/
theorem bandwidth_spec_witness :
    (calculate_bandwidth (calculate_bandwidth initBW 1 0).1 2 1000).2 =
      ((1000 - 0 : ℤ) : ℚ) * 8 / (((2 : ℚ) - 1) * 1000) ∧
    (calculate_bandwidth ⟨1, 0, 5⟩ 2 1000).2 =
      0.7 * 5 + 0.3 * (((1000 - 0 : ℤ) : ℚ) * 8 / (((2 : ℚ) - 1) * 1000)) :=
  ⟨bandwidth_spec.1 1 2 0 1000 (by norm_num) (by norm_num),
   bandwidth_spec.2 ⟨1, 0, 5⟩ 2 1000 (show (0 : ℚ) < 1 by norm_num)
     (show (1 : ℚ) < 2 by norm_num) (show (0 : ℚ) < 5 by norm_num)⟩

/-- C4 counterexample: with the raw tunnel (`vlc`) transport active before
the request, a successful snapshot restarts the HLS pipeline, not the raw
tunnel pipeline that was active before — the prior streaming session is not
restored. -/
theorem take_snapshot_counterexample :
    (take_snapshot ⟨some ⟨7, true⟩, true, StreamingMode.vlc, [], false⟩
        SnapOutcome.success).restarted ≠ some (pipelineOf StreamingMode.vlc) ∧
    (take_snapshot ⟨some ⟨7, true⟩, true, StreamingMode.vlc, [], false⟩
        SnapOutcome.success).restarted = some PipelineKind.h264_hls := by
  constructor
  · decide
  · decide

/-- C4 amended: for every prior state and every capture outcome (success,
non-zero exit, timeout, other exception) the snapshot handler restarts a
pipeline — always the HLS/H.264 one, since `use_hw_acceleration` is constant
true — so the prior streaming session is restored exactly when the prior
transport mode was HLS. -/
theorem take_snapshot_restarts (s : CamState) (o : SnapOutcome) :
    (take_snapshot s o).restarted = some PipelineKind.h264_hls ∧
    (s.streaming_mode = StreamingMode.hls →
      (take_snapshot s o).restarted = some (pipelineOf s.streaming_mode)) := by
  have h : (take_snapshot s o).restarted = some PipelineKind.h264_hls := by
    cases o <;> rfl
  refine ⟨h, fun hm => ?_⟩
  rw [h, hm]
  rfl

/-- Witness for `take_snapshot_restarts` at a concrete HLS-mode state and a
timed-out capture. -/
theorem take_snapshot_restarts_witness :
    (take_snapshot ⟨some ⟨3, true⟩, true, StreamingMode.hls, ["stream.m3u8"], false⟩
        SnapOutcome.timeout).restarted = some PipelineKind.h264_hls ∧
    (StreamingMode.hls = StreamingMode.hls →
      (take_snapshot ⟨some ⟨3, true⟩, true, StreamingMode.hls, ["stream.m3u8"], false⟩
          SnapOutcome.timeout).restarted = some (pipelineOf StreamingMode.hls)) :=
  take_snapshot_restarts
    ⟨some ⟨3, true⟩, true, StreamingMode.hls, ["stream.m3u8"], false⟩
    SnapOutcome.timeout

/-- C7 counterexample: switching from HLS to the raw tunnel while a segment
and a playlist of the old session are on disk starts the raw tunnel session
(mode switched, fresh capture process running) with those HLS artifacts still
present — the switch does not remove them. -/
theorem vlc_switch_counterexample :
    (vlc_mode_switch ⟨some ⟨3, true⟩, true, StreamingMode.hls,
        ["segment_000.ts", "stream.m3u8"], false⟩ 4).hls_files =
      ["segment_000.ts", "stream.m3u8"] ∧
    (vlc_mode_switch ⟨some ⟨3, true⟩, true, StreamingMode.hls,
        ["segment_000.ts", "stream.m3u8"], false⟩ 4).streaming_mode =
      StreamingMode.vlc ∧
    (vlc_mode_switch ⟨some ⟨3, true⟩, true, StreamingMode.hls,
        ["segment_000.ts", "stream.m3u8"], false⟩ 4).camera_running = true := by
  refine ⟨?_, ?_, ?_⟩ <;> rfl

/-- C7 amended: switching the streaming mode from HLS to the raw tunnel stops
the capture/transcode processes and removes the named pipe before the raw
tunnel session starts, but leaves every HLS segment and playlist file in
place; those files are deleted only when the HLS pipeline is next started
(`start_h264_camera`'s cleanup of `.ts`/`.m3u8` files). -/
theorem vlc_mode_switch_spec (s : CamState) (pid : ℕ)
    (h : s.streaming_mode ≠ StreamingMode.vlc) :
    (vlc_mode_switch s pid).hls_files = s.hls_files ∧
    (vlc_mode_switch s pid).streaming_mode = StreamingMode.vlc ∧
    (vlc_mode_switch s pid).current_camera_process = some ⟨pid, true⟩ ∧
    (vlc_mode_switch s pid).fifo_exists = false ∧
    (∀ (s2 : CamState) (pid2 : ℕ),
      (start_h264_camera_step s2 pid2).hls_files =
        s2.hls_files.filter (fun f => !(f.endsWith ".ts" || f.endsWith ".m3u8"))) := by
  unfold vlc_mode_switch
  rw [if_pos h]
  refine ⟨?_, rfl, rfl, rfl, fun s2 pid2 => rfl⟩
  show (stop_camera_process s).hls_files = s.hls_files
  exact (stop_camera_process_preserves s).2.2.1

/-- Witness for `vlc_mode_switch_spec` at a concrete HLS-mode state. -/
theorem vlc_mode_switch_spec_witness :
    (vlc_mode_switch ⟨some ⟨3, true⟩, true, StreamingMode.hls,
        ["segment_001.ts"], false⟩ 9).hls_files = ["segment_001.ts"] ∧
    (vlc_mode_switch ⟨some ⟨3, true⟩, true, StreamingMode.hls,
        ["segment_001.ts"], false⟩ 9).streaming_mode = StreamingMode.vlc ∧
    (vlc_mode_switch ⟨some ⟨3, true⟩, true, StreamingMode.hls,
        ["segment_001.ts"], false⟩ 9).current_camera_process = some ⟨9, true⟩ ∧
    (vlc_mode_switch ⟨some ⟨3, true⟩, true, StreamingMode.hls,
        ["segment_001.ts"], false⟩ 9).fifo_exists = false ∧
    (∀ (s2 : CamState) (pid2 : ℕ),
      (start_h264_camera_step s2 pid2).hls_files =
        s2.hls_files.filter (fun f => !(f.endsWith ".ts" || f.endsWith ".m3u8"))) :=
  vlc_mode_switch_spec
    ⟨some ⟨3, true⟩, true, StreamingMode.hls, ["segment_001.ts"], false⟩ 9
    (by decide)

/-- The only literal flag names in the conditional advanced block. -/
lemma lit_mem_advancedArgs {s : Settings} {x : String}
    (h : Tok.lit x ∈ advancedArgs s) :
    x = "--ev" ∨ x = "--shutter" ∨ x = "--gain" ∨ x = "--denoise" ∨ x = "--hdr" := by
  unfold advancedArgs at h
  simp only [List.mem_append] at h
  rcases h with ((((h | h) | h) | h) | h) <;> (split at h <;> simp_all)

/-- The only literal flag names in the flip block. -/
lemma lit_mem_flipArgs {s : Settings} {x : String}
    (h : Tok.lit x ∈ flipArgs s) : x = "--hflip" ∨ x = "--vflip" := by
  unfold flipArgs at h
  simp only [List.mem_append] at h
  rcases h with (h | h) <;> (split at h <;> simp_all)

/-- The only literal flag name in the ROI block. -/
lemma lit_mem_roiArgs {s : Settings} {x : String}
    (h : Tok.lit x ∈ roiArgs s) : x = "--roi" := by
  unfold roiArgs at h
  split at h <;> simp_all

/-- The only literal flag name in the HLS-path rotation block. -/
lemma lit_mem_h264RotationArgs {s : Settings} {x : String}
    (h : Tok.lit x ∈ h264RotationArgs s) : x = "--rotation" := by
  unfold h264RotationArgs at h
  split at h <;> simp_all

/-- The only literal flag name in the raw-tunnel rotation block. -/
lemma lit_mem_vlcRotationArgs {s : Settings} {x : String}
    (h : Tok.lit x ∈ vlcRotationArgs s) : x = "--rotation" := by
  unfold vlcRotationArgs at h
  split at h <;> simp_all

/-- The fixed head of the HLS capture command holds no rotation flag. -/
lemma rotation_not_mem_h264BaseCmd (s : Settings) :
    Tok.lit "--rotation" ∉ h264BaseCmd s := by
  simp [h264BaseCmd]

/-- The fixed head of the HLS capture command holds no ROI flag. -/
lemma roi_not_mem_h264BaseCmd (s : Settings) :
    Tok.lit "--roi" ∉ h264BaseCmd s := by
  simp [h264BaseCmd]

/-- The fixed head of the raw-tunnel capture command holds no ROI flag. -/
lemma roi_not_mem_vlcBaseCmd (s : Settings) :
    Tok.lit "--roi" ∉ vlcBaseCmd s := by
  simp [vlcBaseCmd]

/-- C6: for rotation 90 or 270 the capture command carries no `--rotation`
flag and the transcoder decodes, transposes (`-vf transpose=1`/`transpose=2`)
and re-encodes in software (`libx264`); for rotation 0 or 180 the transcoder
passes the encoded stream through with `-c:v copy` and no transpose filter. -/
theorem hls_rotation_pipeline (s : Settings) :
    (s.rotation = 90 ∨ s.rotation = 270 →
      Tok.lit "--rotation" ∉ h264CaptureCmd s ∧
      Tok.lit "-vf" ∈ h264FfmpegCmd s ∧
      Tok.lit (transposeFilter s) ∈ h264FfmpegCmd s ∧
      Tok.lit "libx264" ∈ h264FfmpegCmd s) ∧
    (s.rotation = 0 ∨ s.rotation = 180 →
      [Tok.lit "-c:v", Tok.lit "copy"] <:+: h264FfmpegCmd s ∧
      Tok.lit "-vf" ∉ h264FfmpegCmd s ∧
      Tok.lit "transpose=1" ∉ h264FfmpegCmd s ∧
      Tok.lit "transpose=2" ∉ h264FfmpegCmd s ∧
      Tok.lit "libx264" ∉ h264FfmpegCmd s) := by
  constructor
  · intro hrot
    have hnt : needsTranspose s = true := by
      rcases hrot with h | h <;> simp [needsTranspose, h]
    have hra : h264RotationArgs s = [] := by
      simp [h264RotationArgs, hnt]
    refine ⟨?_, ?_, ?_, ?_⟩
    · intro hmem
      unfold h264CaptureCmd at hmem
      rw [hra] at hmem
      simp only [List.append_nil, List.nil_append, List.mem_append] at hmem
      rcases hmem with (((hm | hm) | hm) | hm)
      · exact rotation_not_mem_h264BaseCmd s hm
      · rcases lit_mem_advancedArgs hm with h | h | h | h | h <;> simp_all
      · rcases lit_mem_flipArgs hm with h | h <;> simp_all
      · have := lit_mem_roiArgs hm
        simp_all
    · unfold h264FfmpegCmd
      rw [hnt]
      simp
    · unfold h264FfmpegCmd
      rw [hnt]
      simp
    · unfold h264FfmpegCmd
      rw [hnt]
      simp
  · intro hrot
    have hnt : needsTranspose s = false := by
      rcases hrot with h | h <;> simp [needsTranspose, h]
    have hcmd : h264FfmpegCmd s =
        [Tok.lit "ffmpeg", Tok.lit "-hide_banner", Tok.lit "-loglevel",
         Tok.lit "warning", Tok.lit "-f", Tok.lit "h264", Tok.lit "-i",
         Tok.lit "-", Tok.lit "-c:v", Tok.lit "copy", Tok.lit "-f",
         Tok.lit "hls", Tok.lit "-hls_time", Tok.lit "1",
         Tok.lit "-hls_list_size", Tok.lit "5", Tok.lit "-hls_flags",
         Tok.lit "delete_segments+append_list", Tok.lit "-hls_segment_filename",
         Tok.lit "hls_segments/segment_%03d.ts",
         Tok.lit "hls_segments/stream.m3u8"] := by
      unfold h264FfmpegCmd
      rw [hnt]
      rfl
    rw [hcmd]
    refine ⟨⟨[Tok.lit "ffmpeg", Tok.lit "-hide_banner", Tok.lit "-loglevel",
        Tok.lit "warning", Tok.lit "-f", Tok.lit "h264", Tok.lit "-i",
        Tok.lit "-"], ?_, ?_⟩, by decide, by decide, by decide, by decide⟩
    exact [Tok.lit "-f", Tok.lit "hls", Tok.lit "-hls_time", Tok.lit "1",
      Tok.lit "-hls_list_size", Tok.lit "5", Tok.lit "-hls_flags",
      Tok.lit "delete_segments+append_list", Tok.lit "-hls_segment_filename",
      Tok.lit "hls_segments/segment_%03d.ts", Tok.lit "hls_segments/stream.m3u8"]
    rfl

/-- Witness for `hls_rotation_pipeline`: rotation 90 goes through the
transpose/libx264 path, the default rotation 0 through the copy path. -/
theorem hls_rotation_pipeline_witness :
    (Tok.lit "--rotation" ∉ h264CaptureCmd { defaultSettings with rotation := 90 } ∧
     Tok.lit "-vf" ∈ h264FfmpegCmd { defaultSettings with rotation := 90 } ∧
     Tok.lit (transposeFilter { defaultSettings with rotation := 90 }) ∈
       h264FfmpegCmd { defaultSettings with rotation := 90 } ∧
     Tok.lit "libx264" ∈ h264FfmpegCmd { defaultSettings with rotation := 90 }) ∧
    ([Tok.lit "-c:v", Tok.lit "copy"] <:+: h264FfmpegCmd defaultSettings ∧
     Tok.lit "-vf" ∉ h264FfmpegCmd defaultSettings ∧
     Tok.lit "transpose=1" ∉ h264FfmpegCmd defaultSettings ∧
     Tok.lit "transpose=2" ∉ h264FfmpegCmd defaultSettings ∧
     Tok.lit "libx264" ∉ h264FfmpegCmd defaultSettings) :=
  ⟨(hls_rotation_pipeline { defaultSettings with rotation := 90 }).1 (Or.inl rfl),
   (hls_rotation_pipeline defaultSettings).2 (Or.inl rfl)⟩

/-- C9: for zoom factor z > 1 both capture commands carry the `--roi` flag
with a centered crop — width and height fractions 1/z and both offsets
(1 - 1/z)/2; for z ≤ 1 neither capture command carries an ROI flag. -/
theorem zoom_roi_spec (s : Settings) :
    (s.zoom > 1 →
      roiArgs s = [Tok.lit "--roi",
        Tok.roi ((1 - 1 / s.zoom) / 2) ((1 - 1 / s.zoom) / 2)
          (1 / s.zoom) (1 / s.zoom)] ∧
      Tok.lit "--roi" ∈ h264CaptureCmd s ∧
      Tok.lit "--roi" ∈ vlcCaptureCmd s) ∧
    (s.zoom ≤ 1 →
      Tok.lit "--roi" ∉ h264CaptureCmd s ∧
      Tok.lit "--roi" ∉ vlcCaptureCmd s) := by
  constructor
  · intro hz
    have hroi : roiArgs s = [Tok.lit "--roi",
        Tok.roi ((1 - 1 / s.zoom) / 2) ((1 - 1 / s.zoom) / 2)
          (1 / s.zoom) (1 / s.zoom)] := by
      unfold roiArgs
      rw [if_pos hz]
    refine ⟨hroi, ?_, ?_⟩
    · unfold h264CaptureCmd
      rw [hroi]
      simp
    · unfold vlcCaptureCmd
      rw [hroi]
      simp
  · intro hz
    have hroi : roiArgs s = [] := by
      unfold roiArgs
      rw [if_neg (not_lt.mpr hz)]
    constructor
    · intro hmem
      unfold h264CaptureCmd at hmem
      rw [hroi] at hmem
      simp only [List.append_nil, List.mem_append] at hmem
      rcases hmem with (((hm | hm) | hm) | hm)
      · exact roi_not_mem_h264BaseCmd s hm
      · have := lit_mem_h264RotationArgs hm
        simp_all
      · rcases lit_mem_advancedArgs hm with h | h | h | h | h <;> simp_all
      · rcases lit_mem_flipArgs hm with h | h <;> simp_all
    · intro hmem
      unfold vlcCaptureCmd at hmem
      rw [hroi] at hmem
      simp only [List.append_nil, List.mem_append] at hmem
      rcases hmem with (((hm | hm) | hm) | hm)
      · exact roi_not_mem_vlcBaseCmd s hm
      · have := lit_mem_vlcRotationArgs hm
        simp_all
      · rcases lit_mem_advancedArgs hm with h | h | h | h | h <;> simp_all
      · rcases lit_mem_flipArgs hm with h | h <;> simp_all

/-- Witness for `zoom_roi_spec`: zoom 2 yields the centered quarter-area
crop `--roi 0.25,0.25,0.5,0.5`; the default zoom 1 yields no ROI flag. -/
theorem zoom_roi_spec_witness :
    (roiArgs { defaultSettings with zoom := 2 } = [Tok.lit "--roi",
        Tok.roi ((1 - 1 / (2 : ℚ)) / 2) ((1 - 1 / (2 : ℚ)) / 2)
          (1 / (2 : ℚ)) (1 / (2 : ℚ))] ∧
      Tok.lit "--roi" ∈ h264CaptureCmd { defaultSettings with zoom := 2 } ∧
      Tok.lit "--roi" ∈ vlcCaptureCmd { defaultSettings with zoom := 2 }) ∧
    (Tok.lit "--roi" ∉ h264CaptureCmd defaultSettings ∧
     Tok.lit "--roi" ∉ vlcCaptureCmd defaultSettings) :=
  ⟨(zoom_roi_spec { defaultSettings with zoom := 2 }).1 (by norm_num),
   (zoom_roi_spec defaultSettings).2 (le_refl 1)⟩

/-- A successful `bytes.find` result marks an occurrence at or after the
requested start index. -/
lemma bytesFind_some {b pat : List ℕ} {start i : ℕ}
    (h : bytesFind b pat start = some i) :
    start ≤ i ∧ pat <+: b.drop i := by
  unfold bytesFind at h
  have h2 := List.find?_some h
  simp only [Bool.and_eq_true, decide_eq_true_eq] at h2
  exact ⟨h2.1, List.isPrefixOf_iff_prefix.mp h2.2⟩

/-- The slice `b[s : e+2]` cut between a start-marker occurrence at `s` and an
end-marker occurrence at `e ≥ s + 2` begins with the start marker, ends with
the end marker, has length `e + 2 - s`, and lies inside `b`. -/
lemma extracted_frame_props {b : List ℕ} {s e : ℕ}
    (hs : jpeg_start <+: b.drop s) (he : jpeg_end <+: b.drop e)
    (hse : s + 2 ≤ e) :
    ((b.drop s).take (e + 2 - s)).take 2 = jpeg_start ∧
    ((b.drop s).take (e + 2 - s)).drop
      (((b.drop s).take (e + 2 - s)).length - 2) = jpeg_end ∧
    ((b.drop s).take (e + 2 - s)).length = e + 2 - s ∧
    e + 2 ≤ b.length := by
  have hbe : e + 2 ≤ b.length := by
    have hl := he.length_le
    simp only [List.length_drop, jpeg_end, List.length_cons,
      List.length_nil] at hl
    omega
  have hlen : ((b.drop s).take (e + 2 - s)).length = e + 2 - s := by
    simp only [List.length_take, List.length_drop]
    omega
  refine ⟨?_, ?_, hlen, hbe⟩
  · rw [List.take_take, Nat.min_eq_left (by omega)]
    have h1 := (List.prefix_iff_eq_take.mp hs).symm
    simpa [jpeg_start] using h1
  · rw [hlen]
    have hes : e + 2 - s - 2 = e - s := by omega
    rw [hes, List.drop_take]
    have h1 : (b.drop s).drop (e - s) = b.drop e := by
      rw [List.drop_drop]
      congr 1
      omega
    have h2 : e + 2 - s - (e - s) = 2 := by omega
    rw [h2, h1]
    have h3 := (List.prefix_iff_eq_take.mp he).symm
    simpa [jpeg_end] using h3

/-- Dropping a prefix of the buffer commutes with viewing the buffer inside
the larger stream. -/
lemma drop_append_drop {b t : List ℕ} {d k : ℕ} (hd : d ≤ b.length) :
    (b.drop d ++ t).drop k = (b ++ t).drop (d + k) := by
  rw [← List.drop_append_of_le_length hd, List.drop_drop]

/-- Invariant of the extraction loop: relative to a buffer that starts at
stream position `off`, every frame the loop emits carries a position at or
after `off`, begins with the start marker, ends with the end marker, has at
least the two markers in it, and is the contiguous slice of the remaining
stream at its position; positions are strictly increasing. -/
lemma runChunks_spec (cs : List (List ℕ)) : ∀ (off : ℕ) (buf : List ℕ),
    (∀ pf ∈ (runChunks off buf cs).2.2,
      off ≤ pf.1 ∧
      pf.2.take 2 = jpeg_start ∧
      pf.2.drop (pf.2.length - 2) = jpeg_end ∧
      4 ≤ pf.2.length ∧
      pf.2 = ((buf ++ cs.flatten).drop (pf.1 - off)).take pf.2.length) ∧
    (runChunks off buf cs).2.2.Pairwise (fun p q => p.1 < q.1) := by
  induction cs with
  | nil =>
      intro off buf
      constructor
      · intro pf hpf
        simp [runChunks] at hpf
      · simp [runChunks]
  | cons c cs ih =>
      intro off buf
      simp only [runChunks, stepChunk]
      rcases hfs : bytesFind (buf ++ c) jpeg_start 0 with _ | s
      · -- no start marker in the buffer: keep only the last 2048 bytes
        dsimp only [Option.toList, List.nil_append]
        have hd : (buf ++ c).length - 2048 ≤ (buf ++ c).length := Nat.sub_le _ _
        have key : ∀ k, ((buf ++ c).drop ((buf ++ c).length - 2048) ++ cs.flatten).drop k =
            (buf ++ (c :: cs).flatten).drop (((buf ++ c).length - 2048) + k) := by
          intro k
          rw [drop_append_drop hd, List.flatten_cons, ← List.append_assoc]
        constructor
        · intro pf hpf
          obtain ⟨h1, h2, h3, h4, h5⟩ :=
            (ih (off + ((buf ++ c).length - 2048))
              ((buf ++ c).drop ((buf ++ c).length - 2048))).1 pf hpf
          refine ⟨by omega, h2, h3, h4, ?_⟩
          refine h5.trans ?_
          rw [key (pf.1 - (off + ((buf ++ c).length - 2048))),
            show (buf ++ c).length - 2048 +
                (pf.1 - (off + ((buf ++ c).length - 2048))) = pf.1 - off by omega]
        · exact (ih (off + ((buf ++ c).length - 2048))
            ((buf ++ c).drop ((buf ++ c).length - 2048))).2
      · dsimp only
        rcases hfe : bytesFind (buf ++ c) jpeg_end (s + 2) with _ | e
        · -- start marker but no end marker yet: buffer kept whole
          dsimp only [Option.toList, List.nil_append]
          have key : buf ++ c ++ cs.flatten = buf ++ (c :: cs).flatten := by
            rw [List.flatten_cons, List.append_assoc]
          constructor
          · intro pf hpf
            obtain ⟨h1, h2, h3, h4, h5⟩ := (ih off (buf ++ c)).1 pf hpf
            refine ⟨h1, h2, h3, h4, ?_⟩
            refine h5.trans ?_
            rw [key]
          · exact (ih off (buf ++ c)).2
        · -- complete frame: emit it and continue past it
          dsimp only [Option.toList, List.cons_append, List.nil_append]
          obtain ⟨-, hs'⟩ := bytesFind_some hfs
          obtain ⟨hse, he'⟩ := bytesFind_some hfe
          obtain ⟨hm1, hm2, hlen, hbe⟩ := extracted_frame_props hs' he' hse
          have hd : e + 2 ≤ (buf ++ c).length := hbe
          have key : ∀ k, ((buf ++ c).drop (e + 2) ++ cs.flatten).drop k =
              (buf ++ (c :: cs).flatten).drop ((e + 2) + k) := by
            intro k
            rw [drop_append_drop hd, List.flatten_cons, ← List.append_assoc]
          constructor
          · intro pf hpf
            rcases List.mem_cons.mp hpf with rfl | hpf'
            · refine ⟨?_, hm1, hm2, ?_, ?_⟩
              · show off ≤ off + s
                omega
              · show 4 ≤ (List.take (e + 2 - s) (List.drop s (buf ++ c))).length
                omega
              · show List.take (e + 2 - s) (List.drop s (buf ++ c)) =
                  List.take (List.take (e + 2 - s) (List.drop s (buf ++ c))).length
                    (List.drop (off + s - off) (buf ++ (c :: cs).flatten))
                rw [List.flatten_cons, ← List.append_assoc,
                  show off + s - off = s by omega, hlen,
                  List.drop_append_of_le_length (by omega : s ≤ (buf ++ c).length),
                  List.take_append_of_le_length
                    (by simp only [List.length_drop]; omega :
                      e + 2 - s ≤ (List.drop s (buf ++ c)).length)]
            · obtain ⟨h1, h2, h3, h4, h5⟩ :=
                (ih (off + (e + 2)) ((buf ++ c).drop (e + 2))).1 pf hpf'
              refine ⟨by omega, h2, h3, h4, ?_⟩
              refine h5.trans ?_
              rw [key (pf.1 - (off + (e + 2))),
                show e + 2 + (pf.1 - (off + (e + 2))) = pf.1 - off by omega]
          · refine List.Pairwise.cons ?_ (ih (off + (e + 2)) ((buf ++ c).drop (e + 2))).2
            intro q hq
            have h1 := ((ih (off + (e + 2)) ((buf ++ c).drop (e + 2))).1 q hq).1
            show off + s < q.1
            omega

/-- C10: every JPEG payload the MJPEG frame-extraction loop yields from a
sequence of upstream chunks begins with the two-byte start marker 0xFFD8,
ends with the two-byte end marker 0xFFD9, and is the contiguous substring of
the concatenated upstream byte stream at its recorded position; the recorded
positions are strictly increasing, so frames come out in first-in-first-out
upstream byte order. -/
theorem mjpeg_extraction_spec (chunks : List (List ℕ)) :
    (∀ pf ∈ (runChunks 0 [] chunks).2.2,
      pf.2.take 2 = jpeg_start ∧
      pf.2.drop (pf.2.length - 2) = jpeg_end ∧
      4 ≤ pf.2.length ∧
      pf.2 = (chunks.flatten.drop pf.1).take pf.2.length) ∧
    (runChunks 0 [] chunks).2.2.Pairwise (fun p q => p.1 < q.1) := by
  have h := runChunks_spec chunks 0 []
  constructor
  · intro pf hpf
    obtain ⟨-, h2, h3, h4, h5⟩ := h.1 pf hpf
    refine ⟨h2, h3, h4, ?_⟩
    simpa using h5
  · exact h.2

/-- Witness for `mjpeg_extraction_spec`: from the two chunks
`ff d8 07` and `ff d9 ff d8` the loop emits exactly the frame
`ff d8 07 ff d9` at stream position 0. -/
theorem mjpeg_extraction_spec_witness :
    ([0xff, 0xd8, 0x07, 0xff, 0xd9] : List ℕ).take 2 = jpeg_start ∧
    ([0xff, 0xd8, 0x07, 0xff, 0xd9] : List ℕ).drop
      (([0xff, 0xd8, 0x07, 0xff, 0xd9] : List ℕ).length - 2) = jpeg_end ∧
    4 ≤ ([0xff, 0xd8, 0x07, 0xff, 0xd9] : List ℕ).length ∧
    ([0xff, 0xd8, 0x07, 0xff, 0xd9] : List ℕ) =
      ((([[0xff, 0xd8, 0x07], [0xff, 0xd9, 0xff, 0xd8]] : List (List ℕ)).flatten.drop 0).take
        ([0xff, 0xd8, 0x07, 0xff, 0xd9] : List ℕ).length) :=
  (mjpeg_extraction_spec [[0xff, 0xd8, 0x07], [0xff, 0xd9, 0xff, 0xd8]]).1
    (0, [0xff, 0xd8, 0x07, 0xff, 0xd9]) (by decide)

end PiCam
